import Mathlib

/-!
Verification development for the MCP_Reyes repository (an MCP server
fronting a university academic REST API).

The Python sources are embedded shallowly:

* `SimpleCache` (api_client.py) becomes an association list of entries with
  absolute expiry timestamps; `datetime.now()` is passed explicitly as a
  `Timestamp` (measured in minutes, the unit of `timedelta(minutes=...)`).
* `ReyesClient._make_request` (api_client.py) becomes a pure function over
  the cache state, the current time and a `GetResult` value describing what
  the network did (the HTTP response or the exception raised).
* The domain operations (`get_subject_details`, `get_degrees`,
  `search_subjects`, `_parse_icalendar`, `get_class_schedule`) follow the
  source in api_client.py (the UJI client methods recorded there).
* The two MCP dispatchers — the stdio `handle_call_tool` of server.py and
  the HTTP `mcp_endpoint` of remote_server.py — become functions from the
  request data to a response value; tool bodies (which perform network IO)
  are abstracted as an `Except` argument giving the body's outcome.

`json.dumps(..., indent=2)` output is reproduced as literal strings;
escaping of special characters inside JSON string values is elided (all
values used in the statements are escape-free).
-/

namespace MCPReyes

/-- Absolute time in minutes (`datetime` in the source; a
`timedelta(minutes=m)` adds `m`). -/
abbrev Timestamp := Nat

/-- `ReyesConfig.CACHE_EXPIRY_MINUTES` (api_client.py). -/
def CACHE_EXPIRY_MINUTES : Nat := 15

/-- One value of the dict held by `SimpleCache._cache`:
`{"value": value, "expires": datetime.now() + timedelta(minutes=expiry_minutes)}`. -/
structure CacheEntry (α : Type) where
  value : α
  expires : Timestamp
  deriving Repr, DecidableEq

/-- Lookup in a Python dict modelled as an association list
(`key in self._cache` / `self._cache[key]`). -/
def dictLookup {α : Type} (key : String) : List (String × CacheEntry α) → Option (CacheEntry α)
  | [] => none
  | (k, e) :: rest => if k = key then some e else dictLookup key rest

/-- `self._cache[key] = entry`: replace the entry if the key is present,
otherwise append it (Python dicts keep one entry per key). -/
def dictInsert {α : Type} (key : String) (entry : CacheEntry α) :
    List (String × CacheEntry α) → List (String × CacheEntry α)
  | [] => [(key, entry)]
  | (k, e) :: rest =>
    if k = key then (k, entry) :: rest else (k, e) :: dictInsert key entry rest

/-- `del self._cache[key]`: remove the binding of `key` (a dict holds at
most one binding per key, so removing every pair whose key matches is the
deletion of that one binding). -/
def dictErase {α : Type} (key : String)
    (l : List (String × CacheEntry α)) : List (String × CacheEntry α) :=
  l.filter (fun p => p.1 ≠ key)

/-- `SimpleCache` (api_client.py): in-memory cache with expiration. -/
structure SimpleCache (α : Type) where
  entries : List (String × CacheEntry α)
  deriving Repr, DecidableEq

/-- `SimpleCache.get`: return the cached value if not expired; an expired
entry is deleted (lazy eviction) and the read returns `none`.  The read
time `now` is `datetime.now()`.  Returns the value read and the cache
state after the read. -/
def SimpleCache.get {α : Type} (c : SimpleCache α) (key : String) (now : Timestamp) :
    Option α × SimpleCache α :=
  match dictLookup key c.entries with
  | some entry =>
    if now < entry.expires then (some entry.value, c)
    else (none, ⟨dictErase key c.entries⟩)
  | none => (none, c)

/-- `SimpleCache.set`: store `value` under `key`, expiring
`expiry_minutes` after `now` (the source defaults `expiry_minutes` to
`ReyesConfig.CACHE_EXPIRY_MINUTES`; callers here pass it explicitly). -/
def SimpleCache.set {α : Type} (c : SimpleCache α) (key : String) (value : α)
    (now : Timestamp) (expiry_minutes : Nat) : SimpleCache α :=
  ⟨dictInsert key ⟨value, now + expiry_minutes⟩ c.entries⟩

/-- `SimpleCache.clear`. -/
def SimpleCache.clear {α : Type} (_ : SimpleCache α) : SimpleCache α := ⟨[]⟩

-- Basic dictionary lemmas used below.

theorem dictLookup_dictInsert_self {α : Type} (key : String) (entry : CacheEntry α)
    (l : List (String × CacheEntry α)) :
    dictLookup key (dictInsert key entry l) = some entry := by
  induction l with
  | nil => simp [dictLookup, dictInsert]
  | cons p rest ih =>
    obtain ⟨k, e⟩ := p
    by_cases hk : k = key
    · simp [dictLookup, dictInsert, hk]
    · simp [dictLookup, dictInsert, hk, ih]

theorem dictLookup_dictErase_self {α : Type} (key : String)
    (l : List (String × CacheEntry α)) :
    dictLookup key (dictErase key l) = none := by
  induction l with
  | nil => simp [dictLookup, dictErase]
  | cons p rest ih =>
    obtain ⟨k, e⟩ := p
    by_cases hk : k = key
    · simpa [dictErase, hk] using ih
    · simpa [dictErase, dictLookup, hk] using ih

/-! ### Upstream client: `ReyesClient._make_request` (api_client.py) -/

/-- `APIError` (models.py): error kind tag, message, HTTP status code
(0 when no HTTP status exists), and the failing endpoint. -/
structure APIError where
  error : String
  message : String
  status_code : Nat
  endpoint : Option String
  deriving Repr, DecidableEq

/-- The Python exceptions distinguished by the `except` clauses of
`_make_request`: `requests.exceptions.HTTPError` (raised by
`raise_for_status`, carrying the response's status code and `str(e)`),
any other `requests.exceptions.RequestException`, and any other
exception. -/
inductive PyExc where
  | httpError (status : Nat) (msg : String)
  | requestError (msg : String)
  | otherError (msg : String)
  deriving Repr, DecidableEq

/-- What `self.session.get(url, ...)` did, including how decoding the body
went: either an HTTP response arrived — with its status code, the text
`requests` would use for an `HTTPError` (`str(e)`), and the outcome of
decoding its body per content type — or the call raised. -/
inductive GetResult (α : Type) where
  | response (status : Nat) (reason : String) (decode : Except PyExc α)
  | exc (e : PyExc)

/-- `response.raise_for_status()`: `requests` raises `HTTPError` exactly
when `400 <= status_code < 600`. -/
def raise_for_status (status : Nat) (reason : String) : Except PyExc Unit :=
  if 400 ≤ status ∧ status < 600 then .error (.httpError status reason) else .ok ()

/-- The `APIError` value each `except` clause of `_make_request`
constructs, in source order: `HTTPError` → `HTTP_ERROR` with the
response's status code, other `RequestException` → `REQUEST_ERROR` with
status 0, any other exception → `UNKNOWN_ERROR` with status 0; all carry
`endpoint=url`.  (This value is only constructed — raising it fails, see
`raise_non_exception`.) -/
def pyExcToAPIError (e : PyExc) (url : String) : APIError :=
  match e with
  | .httpError status msg =>
      ⟨"HTTP_ERROR", "HTTP " ++ toString status ++ ": " ++ msg, status, some url⟩
  | .requestError msg => ⟨"REQUEST_ERROR", msg, 0, some url⟩
  | .otherError msg => ⟨"UNKNOWN_ERROR", msg, 0, some url⟩

/-- A CPython `TypeError`; only its `str(e)` is relevant here.  It
carries no `error`/`message`/`status_code`/`endpoint` attributes. -/
structure PyTypeError where
  msg : String
  deriving Repr, DecidableEq

/-- `raise <v>` where `v` is not a `BaseException` instance: `APIError`
(models.py) is a pydantic `BaseModel`, not an exception class, so the
`raise APIError(...)` statements of `_make_request` (api_client.py lines
141, 149, 157) construct their `APIError` value and then raise
`TypeError("exceptions must derive from BaseException")` instead of it. -/
def raise_non_exception (_ : APIError) : PyTypeError :=
  ⟨"exceptions must derive from BaseException"⟩

/-- `cache_key = f"{url}_{str(params)}_{str(headers)}"`; `params` and
`headers` stand for the already-stringified `str(params)` / `str(headers)`
(with `"None"` for an absent argument). -/
def cache_key (url params headers : String) : String :=
  url ++ "_" ++ params ++ "_" ++ headers

/-- Result of one `_make_request` call: the returned value or the
exception that escapes (a `TypeError`, since the `except` clauses fail
to raise their `APIError` values), the cache state afterwards, and
whether an upstream HTTP request was issued. -/
structure RequestResult (α : Type) where
  result : Except PyTypeError α
  cache : SimpleCache α
  httpCalled : Bool

/-- `ReyesClient._make_request` (api_client.py): check the cache first
when `use_cache`; otherwise GET, `raise_for_status`, decode by content
type (the decode outcome is part of `world`), and cache the decoded
value when `use_cache` and the status is 200.  On an exception, the
matching `except` clause constructs its `APIError` value and executes
`raise APIError(...)` — which, `APIError` not being a `BaseException`,
actually raises the `TypeError` of `raise_non_exception`, discarding the
constructed value. -/
def make_request {α : Type} (cache : SimpleCache α) (now : Timestamp)
    (url params headers : String) (use_cache : Bool) (world : GetResult α) :
    RequestResult α :=
  let key := cache_key url params headers
  let checked := if use_cache then cache.get key now else (none, cache)
  match checked.1 with
  | some v => ⟨.ok v, checked.2, false⟩
  | none =>
    match world with
    | .exc e => ⟨.error (raise_non_exception (pyExcToAPIError e url)), checked.2, true⟩
    | .response status reason decode =>
      match raise_for_status status reason with
      | .error e => ⟨.error (raise_non_exception (pyExcToAPIError e url)), checked.2, true⟩
      | .ok _ =>
        match decode with
        | .error e => ⟨.error (raise_non_exception (pyExcToAPIError e url)), checked.2, true⟩
        | .ok result =>
          if use_cache ∧ status = 200 then
            ⟨.ok result, checked.2.set key result now CACHE_EXPIRY_MINUTES, true⟩
          else ⟨.ok result, checked.2, true⟩

/-! ### Domain operations (api_client.py, UJI client methods) -/

/-- `UJIConfig.ACADEMIC_API_BASE`. -/
def ACADEMIC_API_BASE : String := "http://ujiapps.uji.es/lod-autorest/api/datasets/"

/-- `get_subject_details(subject_id)`: a single `_make_request` to
`{base}asignaturas/{subject_id}` with no params and no headers (so the
key uses `str(None) = "None"` twice) and default `use_cache=True`.
The `Subject(**data)` deserialization of the successful payload is out of
scope here; the raw decoded payload is returned. -/
def get_subject_details {α : Type} (cache : SimpleCache α) (now : Timestamp)
    (subject_id : String) (world : GetResult α) : RequestResult α :=
  make_request cache now (ACADEMIC_API_BASE ++ "asignaturas/" ++ subject_id)
    "None" "None" true world

/-- `get_degrees(full)`: `_make_request` to `{base}estudios` with
`params = {"full": "true"}` when `full` else `{}` (stringified as Python
would), no headers, default `use_cache=True`.  The `DegreesResponse`
deserialization is out of scope; the raw decoded payload is returned. -/
def get_degrees {α : Type} (cache : SimpleCache α) (now : Timestamp)
    (full : Bool) (world : GetResult α) : RequestResult α :=
  make_request cache now (ACADEMIC_API_BASE ++ "estudios")
    (if full then "\x7b'full': 'true'\x7d" else "\x7b\x7d") "None" true world

/-- The `get_subjects` tool branch (server.py line 315 and
remote_server.py lines 188 and 556):
`limit = min(arguments.get("limit", 20), 100)`. -/
def get_subjects_limit (limitArg : Option Int) : Int :=
  min (limitArg.getD 20) 100

/-! ### Free-text search: `search_subjects` (api_client.py) -/

/-- `beginsWith n h`: the char list `n` starts the char list `h`. -/
def beginsWith : List Char → List Char → Bool
  | [], _ => true
  | _ :: _, [] => false
  | a :: as, b :: bs => a == b && beginsWith as bs

/-- Substring test on char lists (Python's `needle in haystack`). -/
def hasSub (needle : List Char) : List Char → Bool
  | [] => needle.isEmpty
  | c :: rest => beginsWith needle (c :: rest) || hasSub needle rest

/-- Python's `needle in haystack` on strings. -/
def str_in (needle haystack : String) : Bool :=
  hasSub needle.data haystack.data

/-- Python truthiness of a string: `""` is falsy. -/
def py_truthy (s : String) : Bool := !s.isEmpty

/-- Python `str.lower()`, characterwise. -/
def py_lower (s : String) : String := ⟨s.data.map Char.toLower⟩

/-- Python `str.upper()`, characterwise. -/
def py_upper (s : String) : String := ⟨s.data.map Char.toUpper⟩

/-- `Subject` (models.py): identifier plus the three localized name
fields read by the search; the remaining optional fields
(`estudiantesMatriculados`, `creditos`, ...) are never read by the
algorithms under study and are elided. -/
structure Subject where
  id : String
  nombreCA : Option String
  nombreES : Option String
  nombreEN : Option String
  deriving Repr, DecidableEq

/-- `getattr(subject, f"nombre{language.upper()}")` guarded by `hasattr`:
`none` when the attribute does not exist, otherwise the (optional) field
value. Only `nombreCA` / `nombreES` / `nombreEN` exist as `nombre*`
attributes of `Subject`. -/
def name_for_language (s : Subject) (language : String) : Option (Option String) :=
  if (py_upper language) = "CA" then some s.nombreCA
  else if (py_upper language) = "ES" then some s.nombreES
  else if (py_upper language) = "EN" then some s.nombreEN
  else none

/-- `name and query_lower in name.lower()` for one optional name field. -/
def name_matches (query_lower : String) : Option String → Bool
  | some name => py_truthy name && str_in query_lower (py_lower name)
  | none => false

/-- The language-preference test of the search loop (api_client.py lines
287-292): the attribute `nombre{language.upper()}` exists, its value is
truthy, and it contains the lowered query. -/
def lang_name_matches (query_lower language : String) (s : Subject) : Bool :=
  match name_for_language s language with
  | some (some name) => py_truthy name && str_in query_lower (py_lower name)
  | _ => false

/-- The `for subject in subjects_response.content` loop of
`search_subjects`: match on the id, else on the requested language's
name field, else fall back to the three name fields in the source's
order `["nombreES", "nombreCA", "nombreEN"]` (appending once and
breaking on the first hit). -/
def search_loop (query_lower language : String) : List Subject → List Subject
  | [] => []
  | subject :: rest =>
    if str_in query_lower (py_lower subject.id) then
      subject :: search_loop query_lower language rest
    else if lang_name_matches query_lower language subject then
      subject :: search_loop query_lower language rest
    else if name_matches query_lower subject.nombreES
         || name_matches query_lower subject.nombreCA
         || name_matches query_lower subject.nombreEN then
      subject :: search_loop query_lower language rest
    else
      search_loop query_lower language rest

/-- `search_subjects(query, language)` (api_client.py): lowercase the
query and scan the full listing (the fetch of that listing with
`limit=1000, full=True` is the upstream call; its `content` is the
`content` argument here). -/
def search_subjects (query language : String) (content : List Subject) : List Subject :=
  search_loop (py_lower query) language content

/-- Modelled from the spec's wording of the match predicate (for
comparison with `search_loop`): an item matches case-insensitively by
(a) substring on the identifier, or (b) substring on the requested
language's name field when present and non-null, or (c) — as fallback
when (b) did not match — the three localized name fields in the fixed
order CA, ES, EN, on the first that contains the query. -/
def spec_matches (query language : String) (s : Subject) : Bool :=
  str_in (py_lower query) (py_lower s.id)
    || lang_name_matches (py_lower query) language s
    || (!lang_name_matches (py_lower query) language s
        && (name_matches (py_lower query) s.nombreCA
            || name_matches (py_lower query) s.nombreES
            || name_matches (py_lower query) s.nombreEN))

/-! ### Calendar parsing: `_parse_icalendar`, `get_class_schedule`
(api_client.py) -/

/-- One component yielded by `cal.walk()`: its name (`"VEVENT"` for
events), the stringified `uid` / `summary` / `description` / `location`
properties (`str(component.get(p, ''))`), and the optional
`dtstart.dt` / `dtend.dt` times. -/
structure VComponent where
  name : String
  uid : String
  summary : String
  description : String
  location : String
  dtstart : Option Timestamp
  dtend : Option Timestamp
  deriving Repr, DecidableEq

/-- `ScheduleEvent` (models.py); the `group` / `professor` fields are
never assigned by the parser and are elided. -/
structure ScheduleEvent where
  uid : String
  summary : String
  description : String
  location : String
  start_time : Option Timestamp
  end_time : Option Timestamp
  subject_id : Option String
  event_type : Option String
  deriving Repr, DecidableEq

/-- Python `str.split()` with no argument: split on whitespace runs,
dropping empty tokens. -/
def py_split_ws (s : String) : List String :=
  (s.split Char.isWhitespace).filter (fun t => t ≠ "")

/-- Python `str.isalnum()`: non-empty and every character alphanumeric. -/
def py_isalnum (s : String) : Bool :=
  !s.isEmpty && s.data.all Char.isAlphanum

/-- Build a `ScheduleEvent` from a `VEVENT` component, including the
heuristic: when the summary is non-empty and its first
whitespace-delimited token is alphanumeric, that token becomes
`subject_id`. -/
def event_of_component (c : VComponent) : ScheduleEvent :=
  let base : ScheduleEvent :=
    ⟨c.uid, c.summary, c.description, c.location, c.dtstart, c.dtend, none, none⟩
  if c.summary ≠ "" then
    match py_split_ws c.summary with
    | [] => base
    | p0 :: _ => { base with subject_id := if py_isalnum p0 then some p0 else none }
  else base

/-- `_parse_icalendar(calendar_text)` (api_client.py): `parsed` is what
`Calendar.from_ical(calendar_text)` + `cal.walk()` produced — `none`
when parsing raised (the `except` logs and the function returns the
empty accumulator), `some comps` for the walked component list, from
which each `"VEVENT"` yields one event. -/
def parse_icalendar (parsed : Option (List VComponent)) : List ScheduleEvent :=
  match parsed with
  | none => []
  | some comps => (comps.filter (fun c => c.name == "VEVENT")).map event_of_component

/-- `ScheduleResponse` (models.py); `date_range` holds the
min-start/max-end pair (the `isoformat()` stringification is elided). -/
structure ScheduleResponse where
  events : List ScheduleEvent
  total_events : Nat
  date_range : Option (Timestamp × Timestamp)
  deriving Repr, DecidableEq

/-- `get_class_schedule(year, degree_id)` (api_client.py), from the
parse outcome of the fetched calendar text onwards: parse, then compute
the date range as min of the non-null start times and max of the
non-null end times when events exist and both lists are non-empty. -/
def get_class_schedule (parsed : Option (List VComponent)) : ScheduleResponse :=
  let events := parse_icalendar parsed
  let date_range :=
    if events.isEmpty then none
    else
      let start_dates := events.filterMap (fun e => e.start_time)
      let end_dates := events.filterMap (fun e => e.end_time)
      match start_dates, end_dates with
      | s :: ss, e :: es => some (ss.foldl min s, es.foldl max e)
      | _, _ => none
  ⟨events, events.length, date_range⟩

/-! ### stdio dispatcher: `handle_call_tool` (server.py) -/

/-- The tool names of the stdio catalog, in the order of
`handle_list_tools` (server.py lines 59-300). -/
def stdio_tool_catalog : List String :=
  ["get_subjects", "get_subject_details", "get_subject_groups",
   "get_subject_subgroups", "search_subjects", "get_degrees",
   "get_degree_details", "search_degrees", "get_class_schedule",
   "get_exam_schedule", "get_locations", "get_location_details",
   "search_locations", "clear_cache"]

/-- The guard chain of the stdio `handle_call_tool` (server.py lines
313-518): `name` selects a tool branch exactly when one of these
comparisons holds (in source order of the `if`/`elif` tests). -/
def stdio_dispatched (name : String) : Bool :=
  name == "get_subjects" || name == "get_subject_details"
    || name == "get_subject_groups" || name == "get_subject_subgroups"
    || name == "search_subjects" || name == "get_degrees"
    || name == "get_degree_details" || name == "search_degrees"
    || name == "get_class_schedule" || name == "get_exam_schedule"
    || name == "get_locations" || name == "get_location_details"
    || name == "search_locations" || name == "clear_cache"

/-- `"null"` or a JSON string for an optional value (`json.dumps`). -/
def json_opt_str : Option String → String
  | none => "null"
  | some s => "\"" ++ s ++ "\""

/-- `json.dumps({"error": ..., "message": ..., "status_code": ...,
"endpoint": ..., "tool": name}, indent=2)` — the text produced by the
stdio handler's `except` branch for an exception with `error` and
`message` attributes (an `APIError`). -/
def api_error_text (e : APIError) (tool : String) : String :=
  "\x7b\n  \"error\": \"" ++ e.error ++ "\",\n  \"message\": \"" ++ e.message
    ++ "\",\n  " ++ "\"status_code\": " ++ toString e.status_code
    ++ ",\n  \"endpoint\": " ++ json_opt_str e.endpoint
    ++ ",\n  \"tool\": \"" ++ tool ++ "\"\n\x7d"

/-- The text produced by the stdio handler's `except` branch for any
other exception. -/
def internal_error_text (msg tool : String) : String :=
  "\x7b\n  \"error\": \"INTERNAL_ERROR\",\n  \"message\": \"" ++ msg
    ++ "\",\n  \"tool\": \"" ++ tool ++ "\"\n\x7d"

/-- The `"available_tools"` JSON array of the stdio unknown-tool payload
(server.py lines 526-533), rendered as `json.dumps(..., indent=2)`
renders a list nested at one level. -/
def stdio_available_tools_json : String :=
  "[\n"
    ++ String.intercalate ",\n"
        (stdio_tool_catalog.map (fun n => "    \"" ++ n ++ "\""))
    ++ "\n  ]"

/-- `json.dumps({"error": "Unknown tool", "tool_name": name,
"available_tools": [...]}, indent=2)` — the stdio unknown-tool text
(server.py lines 520-535). -/
def stdio_unknown_tool_text (name : String) : String :=
  "\x7b\n  \"error\": \"Unknown tool\",\n  " ++ "\"tool_name\": \"" ++ name
    ++ "\"" ++ ",\n  \"available_tools\": " ++ stdio_available_tools_json
    ++ "\n\x7d"

/-- The exceptions the stdio handler's `except Exception` distinguishes:
one carrying `error` and `message` attributes (the `APIError` model) and
any other exception. -/
inductive ToolExc where
  | api (e : APIError)
  | other (msg : String)
  deriving Repr, DecidableEq

/-- Result of the stdio `handle_call_tool`: the single `TextContent`'s
text, tagged by whether it came from a tool branch or from the final
unknown-tool `else` branch. -/
inductive StdioToolResult where
  | content (text : String)
  | unknown (text : String)
  deriving Repr, DecidableEq

/-- Whether the result came from the unknown-tool `else` branch. -/
def StdioToolResult.isUnknownTool : StdioToolResult → Bool
  | .unknown _ => true
  | .content _ => false

/-- The `try`/`except` wrapping of one tool branch's body: a normal
return passes the body's text through; a raised exception is re-encoded
by the `except` clause (server.py lines 537-561). -/
def run_tool_body (body : Except ToolExc String) (name : String) : String :=
  match body with
  | .ok text => text
  | .error (.api e) => api_error_text e name
  | .error (.other m) => internal_error_text m name

/-- The stdio `handle_call_tool` (server.py lines 302-561).  The bodies
of the individual tool branches perform network calls and are abstracted
into the `body` outcome; the branch selection and the unknown-tool
`else` follow the source's guard chain. -/
def stdio_handle_call_tool (name : String) (body : Except ToolExc String) :
    StdioToolResult :=
  if stdio_dispatched name then .content (run_tool_body body name)
  else .unknown (stdio_unknown_tool_text name)

/-! ### HTTP dispatcher: `mcp_endpoint` (remote_server.py) -/

/-- The tool names of the HTTP/WebSocket catalog, in the order of the
hardcoded `tools/list` response of `mcp_endpoint` (remote_server.py
lines 441-541); the catalog of `RemoteMCPServer.handle_list_tools`
(lines 82-177) and of `GET /tools` (lines 754-855) lists the same eight
names in the same order. -/
def remote_tool_catalog : List String :=
  ["get_subjects", "search_subjects", "get_degrees", "search_degrees",
   "get_locations", "search_locations", "get_class_schedule",
   "get_exam_schedule"]

/-- The guard chain of the remote tool dispatch, identical in
`RemoteMCPServer.handle_call_tool` (remote_server.py lines 179-307) and
in the `tools/call` branch of `mcp_endpoint` (lines 543-665). -/
def remote_dispatched (name : String) : Bool :=
  name == "get_subjects" || name == "search_subjects"
    || name == "get_degrees" || name == "search_degrees"
    || name == "get_locations" || name == "search_locations"
    || name == "get_class_schedule" || name == "get_exam_schedule"

/-- `json.dumps({"error": "Unknown tool", "tool_name": tool_name},
indent=2)` — the remote unknown-tool text (remote_server.py line 641). -/
def remote_unknown_tool_text (name : String) : String :=
  "\x7b\n  \"error\": \"Unknown tool\",\n  " ++ "\"tool_name\": \"" ++ name
    ++ "\"" ++ "\n\x7d"

/-- The `resources/read` payload for `uji://api/info`
(remote_server.py lines 688-699), as `json.dumps(..., indent=2)`
renders it. -/
def remote_api_info_text : String :=
  "\x7b\n  \"name\": \"UJI Academic Information System API\",\n  "
    ++ "\"description\": \"Access to Universitat Jaume I academic data\",\n  "
    ++ "\"version\": \"1.0.0\",\n  \"remote_access\": true,\n  "
    ++ "\"endpoints\": \x7b\n    \"subjects\": \"Subject information and management\",\n    "
    ++ "\"degrees\": \"Degree program information\",\n    "
    ++ "\"schedules\": \"Class and exam schedules\",\n    "
    ++ "\"locations\": \"University location information\"\n  \x7d\n\x7d"

/-- The `result` payloads `mcp_endpoint` can produce (each modelling the
`"result"` object of the returned JSON-RPC envelope; `resourcesList`
carries the listed resource URIs). -/
inductive McpResult where
  | initResult
  | toolsList (names : List String)
  | toolCall (text : String)
  | resourcesList (uris : List String)
  | resourceRead (uri : String) (text : String)
  deriving Repr, DecidableEq

/-- A JSON-RPC envelope returned by `mcp_endpoint`: either a success
envelope with a `result`, or an error object `{code, message}` (the
`id`/`jsonrpc` echo fields are uniform and elided). -/
inductive McpHttpResponse where
  | result (r : McpResult)
  | rpcError (code : Int) (message : String)
  deriving Repr, DecidableEq

/-- `POST /mcp` — `mcp_endpoint` (remote_server.py lines 410-743): the
method router.  `toolName` and `uri` are the relevant `params` fields;
`toolRun` abstracts the executed tool body's outcome (its result text,
or the message of the exception it raised). -/
def mcp_endpoint (method toolName uri : String)
    (toolRun : Except String String) : McpHttpResponse :=
  if method == "initialize" then .result .initResult
  else if method == "tools/list" then .result (.toolsList remote_tool_catalog)
  else if method == "tools/call" then
    if remote_dispatched toolName then
      match toolRun with
      | .ok text => .result (.toolCall text)
      | .error e => .rpcError (-32603) ("Tool execution error: " ++ e)
    else .result (.toolCall (remote_unknown_tool_text toolName))
  else if method == "resources/list" then
    .result (.resourcesList ["uji://api/info"])
  else if method == "resources/read" then
    if uri == "uji://api/info" then .result (.resourceRead uri remote_api_info_text)
    else .rpcError (-32602) ("Unknown resource: " ++ uri)
  else .rpcError (-32601) ("Method not found: " ++ method)

/-- `RemoteMCPServer.handle_read_resource` (remote_server.py lines
325-342): the known URI returns the info document, anything else raises
`ValueError(f"Unknown resource: {uri}")`. -/
def handle_read_resource (uri : String) : Except String String :=
  if uri == "uji://api/info" then .ok remote_api_info_text
  else .error ("Unknown resource: " ++ uri)

/-- A JSON-RPC envelope sent back over the WebSocket transport. -/
inductive WsResponse where
  | result (text : String)
  | rpcError (code : Int) (message : String)
  deriving Repr, DecidableEq

/-- The `resources/read` handling of `websocket_endpoint`
(remote_server.py lines 928-976): the read handler's `ValueError` is
caught by the generic `except Exception` and wrapped as a `-32603`
internal error. -/
def websocket_resources_read (uri : String) : WsResponse :=
  match handle_read_resource uri with
  | .ok content => .result content
  | .error msg => .rpcError (-32603) ("Internal error: " ++ msg)

/-! ### Helper notions and lemmas -/

/-- `m` occurs as a substring of `s` (the character data of `s` splits
around the data of `m`). -/
def str_contains (s m : String) : Prop :=
  ∃ a b : List Char, s.data = a ++ m.data ++ b

/-! ### Claims -/

/-- Claim C2: for every cache key `k` and value `v`, `set(k, v)` followed
immediately by `get(k)` returns `v`; `get(k)` after the entry's TTL has
elapsed returns absent and removes the entry from the store (lazy
eviction on read); `get(k)` on a never-set key returns absent. -/
theorem C2_cache_get_set (α : Type) (c : SimpleCache α) (k knever : String)
    (v : α) (now t : Timestamp) (ht : now + CACHE_EXPIRY_MINUTES ≤ t)
    (hnever : dictLookup knever c.entries = none) :
    (((c.set k v now CACHE_EXPIRY_MINUTES).get k now).1 = some v)
    ∧ (((c.set k v now CACHE_EXPIRY_MINUTES).get k t).1 = none)
    ∧ (dictLookup k (((c.set k v now CACHE_EXPIRY_MINUTES).get k t).2).entries = none)
    ∧ ((c.get knever now).1 = none) := by
  have hlook := dictLookup_dictInsert_self k
    (⟨v, now + CACHE_EXPIRY_MINUTES⟩ : CacheEntry α) c.entries
  have hlt : now < now + CACHE_EXPIRY_MINUTES := by
    simp [CACHE_EXPIRY_MINUTES]
  have hnlt : ¬ t < now + CACHE_EXPIRY_MINUTES := Nat.not_lt.mpr ht
  refine ⟨?_, ?_, ?_, ?_⟩
  · simp [SimpleCache.get, SimpleCache.set, hlook, hlt]
  · simp [SimpleCache.get, SimpleCache.set, hlook, hnlt]
  · simp [SimpleCache.get, SimpleCache.set, hlook, hnlt,
      dictLookup_dictErase_self]
  · simp [SimpleCache.get, hnever]

/-- Witness for C2 at a concrete cache. -/
theorem C2_cache_get_set_witness :
    (0 + CACHE_EXPIRY_MINUTES ≤ 15
      ∧ dictLookup "j" ([] : List (String × CacheEntry Nat)) = none)
    ∧ ((((⟨[]⟩ : SimpleCache Nat).set "k" 7 0 CACHE_EXPIRY_MINUTES).get "k" 0).1 = some 7)
    ∧ ((((⟨[]⟩ : SimpleCache Nat).set "k" 7 0 CACHE_EXPIRY_MINUTES).get "k" 15).1 = none)
    ∧ (dictLookup "k"
        ((((⟨[]⟩ : SimpleCache Nat).set "k" 7 0 CACHE_EXPIRY_MINUTES).get "k" 15).2).entries = none)
    ∧ (((⟨[]⟩ : SimpleCache Nat).get "j" 0).1 = none) :=
  ⟨⟨by decide, rfl⟩, C2_cache_get_set Nat ⟨[]⟩ "k" "j" 7 0 15 (by decide) rfl⟩

/-- Claim C6: the `get_subjects` tool branch clamps a supplied `limit`
to at most 100 before invoking the listing operation (the default is
20), and a call with `limit=500` requests effectively 100 records. -/
theorem C6_limit_clamped (l : Int) :
    get_subjects_limit (some l) ≤ 100
    ∧ get_subjects_limit none = 20
    ∧ get_subjects_limit (some 500) = 100 :=
  ⟨min_le_right _ _, rfl, rfl⟩

/-- Counterexample to claim C7 as stated: the single resource of the
catalog has uri `"uji://api/info"`, not `"academic://api/info"`, and
`resources/read` of `"academic://api/info"` itself is rejected with the
`-32602` error. -/
theorem C7_counterexample :
    mcp_endpoint "resources/list" "" "" (.ok "") =
      .result (.resourcesList ["uji://api/info"])
    ∧ ("uji://api/info" : String) ≠ "academic://api/info"
    ∧ mcp_endpoint "resources/read" "" "academic://api/info" (.ok "") =
        .rpcError (-32602) "Unknown resource: academic://api/info" :=
  ⟨rfl, by decide, rfl⟩

/-- Claim C7 (amended): the resource catalog contains exactly one fixed
resource, with uri `"uji://api/info"`; an HTTP `resources/read` of any
other uri returns a JSON-RPC error object with code `-32602`, while the
WebSocket transport wraps the same failed read as a `-32603` internal
error. -/
theorem C7_resources (toolName u uri : String) (run : Except String String)
    (h : uri ≠ "uji://api/info") :
    mcp_endpoint "resources/list" toolName u run =
      .result (.resourcesList ["uji://api/info"])
    ∧ mcp_endpoint "resources/read" toolName uri run =
        .rpcError (-32602) ("Unknown resource: " ++ uri)
    ∧ websocket_resources_read uri =
        .rpcError (-32603) ("Internal error: " ++ ("Unknown resource: " ++ uri)) := by
  refine ⟨rfl, ?_, ?_⟩
  · simp [mcp_endpoint, h]
  · simp [websocket_resources_read, handle_read_resource, h]

/-- Witness for C7 (amended) at `uri="bad://x"`. -/
theorem C7_resources_witness :
    (("bad://x" : String) ≠ "uji://api/info")
    ∧ mcp_endpoint "resources/list" "" "" (.ok "") =
        .result (.resourcesList ["uji://api/info"])
    ∧ mcp_endpoint "resources/read" "" "bad://x" (.ok "") =
        .rpcError (-32602) ("Unknown resource: " ++ "bad://x")
    ∧ websocket_resources_read "bad://x" =
        .rpcError (-32603) ("Internal error: " ++ ("Unknown resource: " ++ "bad://x")) :=
  ⟨by decide, C7_resources "" "" "bad://x" (.ok "") (by decide)⟩

/-- Counterexample to claim C9 as stated: a `ping` request is answered
with a JSON-RPC error object (`-32601`, method not found), not with an
empty success result. -/
theorem C9_counterexample :
    mcp_endpoint "ping" "" "" (.ok "") =
      .rpcError (-32601) "Method not found: ping" := rfl

/-- Claim C9 (amended): `"ping"` is not among the methods the dispatcher
handles; every `ping` request falls through to the unknown-method branch
and yields the JSON-RPC error object with code `-32601` and message
`"Method not found: ping"`. -/
theorem C9_ping (toolName uri : String) (run : Except String String) :
    mcp_endpoint "ping" toolName uri run =
      .rpcError (-32601) "Method not found: ping" := rfl

/-- Claim C8: `getSchedule` never raises on a calendar parse failure —
a failed parse degrades to the empty event list — and calendar text with
zero `VEVENT` components yields
`{events: [], totalEvents: 0, dateRange: null}`. -/
theorem C8_schedule_degrades (comps : List VComponent)
    (h : ∀ c ∈ comps, c.name ≠ "VEVENT") :
    parse_icalendar none = []
    ∧ get_class_schedule none = ⟨[], 0, none⟩
    ∧ get_class_schedule (some comps) = ⟨[], 0, none⟩ := by
  refine ⟨rfl, rfl, ?_⟩
  have hf : comps.filter (fun c => c.name == "VEVENT") = [] := by
    rw [List.filter_eq_nil_iff]
    intro c hc
    simpa using h c hc
  simp [get_class_schedule, parse_icalendar, hf]

/-- Witness for C8 with a concrete event-free component list. -/
theorem C8_schedule_degrades_witness :
    (∀ c ∈ [(⟨"VCALENDAR", "", "", "", "", none, none⟩ : VComponent)],
        c.name ≠ "VEVENT")
    ∧ parse_icalendar none = []
    ∧ get_class_schedule none = ⟨[], 0, none⟩
    ∧ get_class_schedule
        (some [(⟨"VCALENDAR", "", "", "", "", none, none⟩ : VComponent)]) =
        ⟨[], 0, none⟩ :=
  ⟨by decide, C8_schedule_degrades _ (by decide)⟩

/-- Claim C10: per transport, the tool catalog and the tool dispatcher
agree — every cataloged name has a dispatch branch, so a cataloged tool
never reaches the unknown-tool branch; the stdio catalog has the 14
tools (including `clear_cache` and the detail/group lookups) and the
HTTP/WebSocket catalog the 8-tool subset. -/
theorem C10_catalog_dispatch_agree :
    (∀ n ∈ stdio_tool_catalog, stdio_dispatched n = true)
    ∧ (∀ n ∈ remote_tool_catalog, remote_dispatched n = true)
    ∧ stdio_tool_catalog.length = 14
    ∧ remote_tool_catalog.length = 8
    ∧ "clear_cache" ∈ stdio_tool_catalog
    ∧ "get_subject_details" ∈ stdio_tool_catalog
    ∧ "get_subject_groups" ∈ stdio_tool_catalog
    ∧ (∀ n, n ∈ stdio_tool_catalog → ∀ body,
        (stdio_handle_call_tool n body).isUnknownTool = false)
    ∧ (∀ n, n ∈ remote_tool_catalog → ∀ uri m,
        mcp_endpoint "tools/call" n uri (.error m) =
          .rpcError (-32603) ("Tool execution error: " ++ m)) := by
  have hstdio : ∀ n ∈ stdio_tool_catalog, stdio_dispatched n = true := by decide
  have hremote : ∀ n ∈ remote_tool_catalog, remote_dispatched n = true := by decide
  refine ⟨hstdio, hremote, rfl, rfl, by decide, by decide, by decide, ?_, ?_⟩
  · intro n hn body
    simp [stdio_handle_call_tool, hstdio n hn, StdioToolResult.isUnknownTool]
  · intro n hn uri m
    simp [mcp_endpoint, hremote n hn]

/-- Witness for C10 at concrete cataloged tools. -/
theorem C10_catalog_dispatch_agree_witness :
    ("clear_cache" ∈ stdio_tool_catalog
      ∧ "get_degrees" ∈ remote_tool_catalog)
    ∧ stdio_dispatched "clear_cache" = true
    ∧ remote_dispatched "get_degrees" = true
    ∧ (stdio_handle_call_tool "clear_cache" (.ok "cleared")).isUnknownTool = false
    ∧ mcp_endpoint "tools/call" "get_degrees" "" (.error "boom") =
        .rpcError (-32603) ("Tool execution error: " ++ "boom") := by
  have h := C10_catalog_dispatch_agree
  exact ⟨⟨by decide, by decide⟩, h.1 "clear_cache" (by decide),
    h.2.1 "get_degrees" (by decide),
    h.2.2.2.2.2.2.2.1 "clear_cache" (by decide) (.ok "cleared"),
    h.2.2.2.2.2.2.2.2 "get_degrees" (by decide) "" "boom"⟩

/-- Claim C1: with `useCache=true`, an unexpired cache hit is returned
with no HTTP call; a 200 response on a miss is stored under the derived
key with the default 15-minute TTL before returning; hence two identical
`get_degrees(full=true)` calls within the TTL window issue exactly one
upstream HTTP request, the second being served from the cache. -/
theorem C1_request_caching (α : Type)
    (cacheH cacheM cacheD : SimpleCache α)
    (urlH paramsH headersH urlM paramsM headersM : String)
    (vH vM vD : α) (t0 tm t1 t2 : Timestamp) (rM rD : String)
    (w0 w2 : GetResult α)
    (hhit : (cacheH.get (cache_key urlH paramsH headersH) t0).1 = some vH)
    (hmiss : (cacheM.get (cache_key urlM paramsM headersM) tm).1 = none)
    (hmissD : (cacheD.get (cache_key (ACADEMIC_API_BASE ++ "estudios")
        "\x7b'full': 'true'\x7d" "None") t1).1 = none)
    (h12 : t1 ≤ t2) (hTTL : t2 < t1 + CACHE_EXPIRY_MINUTES) :
    make_request cacheH t0 urlH paramsH headersH true w0 =
      ⟨.ok vH, (cacheH.get (cache_key urlH paramsH headersH) t0).2, false⟩
    ∧ make_request cacheM tm urlM paramsM headersM true (.response 200 rM (.ok vM)) =
      ⟨.ok vM, ((cacheM.get (cache_key urlM paramsM headersM) tm).2).set
          (cache_key urlM paramsM headersM) vM tm CACHE_EXPIRY_MINUTES, true⟩
    ∧ (get_degrees cacheD t1 true (.response 200 rD (.ok vD))).httpCalled = true
    ∧ (get_degrees (get_degrees cacheD t1 true (.response 200 rD (.ok vD))).cache
          t2 true w2).httpCalled = false
    ∧ (get_degrees (get_degrees cacheD t1 true (.response 200 rD (.ok vD))).cache
          t2 true w2).result = .ok vD := by
  have hfirst :
      get_degrees cacheD t1 true (.response 200 rD (.ok vD)) =
        ⟨.ok vD, ((cacheD.get (cache_key (ACADEMIC_API_BASE ++ "estudios")
            "\x7b'full': 'true'\x7d" "None") t1).2).set
          (cache_key (ACADEMIC_API_BASE ++ "estudios")
            "\x7b'full': 'true'\x7d" "None") vD t1 CACHE_EXPIRY_MINUTES, true⟩ := by
    simp [get_degrees, make_request, hmissD, raise_for_status]
  have hget2 :
      ∀ c : SimpleCache α, ∀ key : String,
        ((c.set key vD t1 CACHE_EXPIRY_MINUTES).get key t2).1 = some vD := by
    intro c key
    simp [SimpleCache.get, SimpleCache.set, dictLookup_dictInsert_self, hTTL]
  refine ⟨?_, ?_, ?_, ?_, ?_⟩
  · simp [make_request, hhit]
  · simp [make_request, hmiss, raise_for_status]
  · rw [hfirst]
  · rw [hfirst]
    simp [get_degrees, make_request, hget2]
  · rw [hfirst]
    simp [get_degrees, make_request, hget2]

/-- Witness for C1 at concrete caches, times and payloads. -/
theorem C1_request_caching_witness :
    (((SimpleCache.mk [(cache_key "u" "p" "h",
          (⟨5, 9⟩ : CacheEntry Nat))]).get (cache_key "u" "p" "h") 3).1 = some 5
      ∧ ((⟨[]⟩ : SimpleCache Nat).get (cache_key "um" "pm" "hm") 0).1 = none
      ∧ ((⟨[]⟩ : SimpleCache Nat).get (cache_key (ACADEMIC_API_BASE ++ "estudios")
          "\x7b'full': 'true'\x7d" "None") 0).1 = none
      ∧ (0 : Nat) ≤ 10 ∧ (10 : Nat) < 0 + CACHE_EXPIRY_MINUTES)
    ∧ make_request (SimpleCache.mk [(cache_key "u" "p" "h",
          (⟨5, 9⟩ : CacheEntry Nat))]) 3 "u" "p" "h" true (.exc (.otherError "x")) =
        ⟨.ok 5, ((SimpleCache.mk [(cache_key "u" "p" "h",
          (⟨5, 9⟩ : CacheEntry Nat))]).get (cache_key "u" "p" "h") 3).2, false⟩
    ∧ make_request (⟨[]⟩ : SimpleCache Nat) 0 "um" "pm" "hm" true
          (.response 200 "OK" (.ok 7)) =
        ⟨.ok 7, (((⟨[]⟩ : SimpleCache Nat).get (cache_key "um" "pm" "hm") 0).2).set
          (cache_key "um" "pm" "hm") 7 0 CACHE_EXPIRY_MINUTES, true⟩
    ∧ (get_degrees (⟨[]⟩ : SimpleCache Nat) 0 true (.response 200 "OK" (.ok 9))).httpCalled = true
    ∧ (get_degrees (get_degrees (⟨[]⟩ : SimpleCache Nat) 0 true
          (.response 200 "OK" (.ok 9))).cache 10 true (.exc (.otherError "x"))).httpCalled = false
    ∧ (get_degrees (get_degrees (⟨[]⟩ : SimpleCache Nat) 0 true
          (.response 200 "OK" (.ok 9))).cache 10 true (.exc (.otherError "x"))).result = .ok 9 :=
  ⟨⟨by decide, rfl, rfl, by decide, by decide⟩,
   C1_request_caching Nat _ ⟨[]⟩ ⟨[]⟩ "u" "p" "h" "um" "pm" "hm" 5 7 9 3 0 0 10
     "OK" "OK" (.exc (.otherError "x")) (.exc (.otherError "x"))
     (by decide) rfl rfl (by decide) (by decide)⟩

/-- A non-2xx status outside 400..599 does not even reach the `except`
clauses: `raise_for_status` only raises for 400..599, so a 304 response
returns the decoded body successfully. -/
theorem make_request_304_success :
    make_request (⟨[]⟩ : SimpleCache String) 0 "http://example/u" "None" "None"
        false (.response 304 "Not Modified" (.ok "body")) =
      ⟨.ok "body", ⟨[]⟩, true⟩ := rfl

/-- The `APIError` value the `HTTPError` `except` clause constructs for
an upstream 404 on `get_subject_details("ZZZ999")` — constructed but
never successfully raised. -/
def e404 : APIError :=
  ⟨"HTTP_ERROR", "HTTP 404: Not Found", 404,
   some (ACADEMIC_API_BASE ++ "asignaturas/" ++ "ZZZ999")⟩

/-- Claim C3 (code bug): at the failing input — upstream HTTP 404 on the
detail lookup `get_subject_details("ZZZ999")` with an empty cache — the
`except` clause constructs the intended `APIError` (`HTTP_ERROR`, 404,
endpoint), but `raise APIError(...)` fails because `APIError` is a
pydantic `BaseModel`, not a `BaseException`: the operation raises a bare
`TypeError` carrying neither status code nor endpoint; the stdio tool
handler therefore takes its attribute-less branch and renders the
`INTERNAL_ERROR` payload, whose text contains
`"error": "INTERNAL_ERROR"` and does not contain
`"status_code": 404` — contradicting the claim and the spec's error
envelope, which the code's own `except` clauses clearly intend. -/
theorem C3_api_error_not_raisable :
    (get_subject_details (⟨[]⟩ : SimpleCache String) 0 "ZZZ999"
        (.response 404 "Not Found" (.ok "x"))).result =
      .error ⟨"exceptions must derive from BaseException"⟩
    ∧ pyExcToAPIError (.httpError 404 "Not Found")
        (ACADEMIC_API_BASE ++ "asignaturas/" ++ "ZZZ999") = e404
    ∧ raise_non_exception e404 = ⟨"exceptions must derive from BaseException"⟩
    ∧ stdio_handle_call_tool "get_subject_details"
        (.error (.other "exceptions must derive from BaseException")) =
      .content (internal_error_text "exceptions must derive from BaseException"
        "get_subject_details")
    ∧ str_in "\"error\": \"INTERNAL_ERROR\""
        (internal_error_text "exceptions must derive from BaseException"
          "get_subject_details") = true
    ∧ str_in "\"status_code\": 404"
        (internal_error_text "exceptions must derive from BaseException"
          "get_subject_details") = false :=
  ⟨rfl, rfl, rfl, rfl, by decide, by decide⟩

/-- Claim C4: a `tools/call` whose tool name is not in the catalog
returns a successful JSON-RPC response (not a JSON-RPC error object)
whose result payload embeds `{error: "Unknown tool", tool_name}` — on
both the stdio and the HTTP dispatcher — while a dispatch-level failure
(an unknown method) uses the JSON-RPC error object. -/
theorem C4_unknown_tool (name method uri : String) (run : Except String String)
    (body : Except ToolExc String)
    (hremote : remote_dispatched name = false)
    (hstdio : stdio_dispatched name = false)
    (hm1 : method ≠ "initialize") (hm2 : method ≠ "tools/list")
    (hm3 : method ≠ "tools/call") (hm4 : method ≠ "resources/list")
    (hm5 : method ≠ "resources/read") :
    mcp_endpoint "tools/call" name uri run =
      .result (.toolCall (remote_unknown_tool_text name))
    ∧ str_contains (remote_unknown_tool_text name) "\"error\": \"Unknown tool\""
    ∧ str_contains (remote_unknown_tool_text name)
        ("\"tool_name\": \"" ++ name ++ "\"")
    ∧ stdio_handle_call_tool name body = .unknown (stdio_unknown_tool_text name)
    ∧ str_contains (stdio_unknown_tool_text name) "\"error\": \"Unknown tool\""
    ∧ str_contains (stdio_unknown_tool_text name)
        ("\"tool_name\": \"" ++ name ++ "\"")
    ∧ mcp_endpoint method name uri run =
        .rpcError (-32601) ("Method not found: " ++ method) := by
  refine ⟨?_, ?_, ?_, ?_, ?_, ?_, ?_⟩
  · simp [mcp_endpoint, hremote]
  · exact ⟨("\x7b\n  ").data,
      ((",\n  " ++ "\"tool_name\": \"" ++ name ++ "\"" ++ "\n\x7d")).data, rfl⟩
  · exact ⟨("\x7b\n  \"error\": \"Unknown tool\",\n  ").data,
      ("\n\x7d" : String).data, rfl⟩
  · simp [stdio_handle_call_tool, hstdio]
  · exact ⟨("\x7b\n  ").data,
      ((",\n  " ++ "\"tool_name\": \"" ++ name ++ "\"" ++ ",\n  \"available_tools\": "
        ++ stdio_available_tools_json ++ "\n\x7d")).data,
      by
        simp only [stdio_unknown_tool_text, String.data_append, List.append_assoc]
        rfl⟩
  · exact ⟨("\x7b\n  \"error\": \"Unknown tool\",\n  ").data,
      ((",\n  \"available_tools\": " ++ stdio_available_tools_json ++ "\n\x7d")).data,
      by simp only [stdio_unknown_tool_text, String.data_append,
          List.append_assoc]⟩
  · simp [mcp_endpoint, hm1, hm2, hm3, hm4, hm5]

/-- Witness for C4 at a concrete unknown tool name and unknown method. -/
theorem C4_unknown_tool_witness :
    (remote_dispatched "no_such_tool" = false
      ∧ stdio_dispatched "no_such_tool" = false
      ∧ ("foo/bar" : String) ≠ "initialize")
    ∧ mcp_endpoint "tools/call" "no_such_tool" "" (.ok "t") =
        .result (.toolCall (remote_unknown_tool_text "no_such_tool"))
    ∧ str_contains (remote_unknown_tool_text "no_such_tool")
        "\"error\": \"Unknown tool\""
    ∧ str_contains (remote_unknown_tool_text "no_such_tool")
        ("\"tool_name\": \"" ++ "no_such_tool" ++ "\"")
    ∧ stdio_handle_call_tool "no_such_tool" (.ok "t") =
        .unknown (stdio_unknown_tool_text "no_such_tool")
    ∧ str_contains (stdio_unknown_tool_text "no_such_tool")
        "\"error\": \"Unknown tool\""
    ∧ str_contains (stdio_unknown_tool_text "no_such_tool")
        ("\"tool_name\": \"" ++ "no_such_tool" ++ "\"")
    ∧ mcp_endpoint "foo/bar" "no_such_tool" "" (.ok "t") =
        .rpcError (-32601) ("Method not found: " ++ "foo/bar") := by
  have h := C4_unknown_tool "no_such_tool" "foo/bar" "" (.ok "t") (.ok "t")
    (by decide) (by decide) (by decide) (by decide) (by decide) (by decide) (by decide)
  exact ⟨⟨by decide, by decide, by decide⟩, h.1, h.2.1, h.2.2.1, h.2.2.2.1,
    h.2.2.2.2.1, h.2.2.2.2.2.1, h.2.2.2.2.2.2⟩

/-- A language-preference match implies one of the three name fields
matches. -/
theorem lang_name_matches_imp (q lang : String) (s : Subject)
    (h : lang_name_matches q lang s = true) :
    (name_matches q s.nombreCA || name_matches q s.nombreES
      || name_matches q s.nombreEN) = true := by
  unfold lang_name_matches name_for_language at h
  by_cases hca : (py_upper lang) = "CA"
  · simp [hca] at h
    cases hn : s.nombreCA with
    | none => rw [hn] at h; simp at h
    | some n =>
      rw [hn] at h
      simp at h
      simp [name_matches, hn, h.1, h.2]
  · by_cases hes : (py_upper lang) = "ES"
    · simp [hca, hes] at h
      cases hn : s.nombreES with
      | none => rw [hn] at h; simp at h
      | some n =>
        rw [hn] at h
        simp at h
        simp [name_matches, hn, h.1, h.2]
    · by_cases hen : (py_upper lang) = "EN"
      · simp [hca, hes, hen] at h
        cases hn : s.nombreEN with
        | none => rw [hn] at h; simp at h
        | some n =>
          rw [hn] at h
          simp at h
          simp [name_matches, hn, h.1, h.2]
      · simp [hca, hes, hen] at h

/-- The search loop returns exactly the items satisfying the spec's
match predicate, in listing order. -/
theorem search_loop_eq_filter (query language : String) (l : List Subject) :
    search_loop (py_lower query) language l = l.filter (spec_matches query language) := by
  induction l with
  | nil => rfl
  | cons s rest ih =>
    simp only [search_loop, List.filter_cons, ih]
    by_cases hc1 : str_in (py_lower query) (py_lower s.id) = true
    · simp [spec_matches, hc1]
    · rw [Bool.not_eq_true] at hc1
      by_cases hc2 : lang_name_matches (py_lower query) language s = true
      · simp [spec_matches, hc1, hc2]
      · rw [Bool.not_eq_true] at hc2
        have hcomm :
            (name_matches (py_lower query) s.nombreES
              || name_matches (py_lower query) s.nombreCA
              || name_matches (py_lower query) s.nombreEN)
            = (name_matches (py_lower query) s.nombreCA
              || name_matches (py_lower query) s.nombreES
              || name_matches (py_lower query) s.nombreEN) := by
          cases name_matches (py_lower query) s.nombreES <;>
            cases name_matches (py_lower query) s.nombreCA <;> simp
        simp [spec_matches, hc1, hc2, hcomm]

/-- Claim C5: `search(query, language)` returns exactly the items of the
full listing, in upstream order and each at most once, that match
case-insensitively on the id, on the requested language's name field
when present and non-null, or — as fallback when the language field did
not match — on the localized name fields in the fixed order CA, ES, EN;
hence every returned item is in the listing and matches on id or at
least one name field. -/
theorem spec_matches_imp (query language : String) (s : Subject)
    (hm : spec_matches query language s = true) :
    (str_in (py_lower query) (py_lower s.id)
      || name_matches (py_lower query) s.nombreCA
      || name_matches (py_lower query) s.nombreES
      || name_matches (py_lower query) s.nombreEN) = true := by
  unfold spec_matches at hm
  by_cases h1 : str_in (py_lower query) (py_lower s.id) = true
  · simp [h1]
  · rw [Bool.not_eq_true] at h1
    rw [h1] at hm
    simp only [Bool.false_or] at hm
    by_cases h2 : lang_name_matches (py_lower query) language s = true
    · have h3 := lang_name_matches_imp (py_lower query) language s h2
      simp only [Bool.or_eq_true] at h3 ⊢
      tauto
    · rw [Bool.not_eq_true] at h2
      rw [h2] at hm
      simp only [Bool.false_or, Bool.not_false, Bool.true_and] at hm
      simp only [Bool.or_eq_true] at hm ⊢
      tauto

theorem C5_search_characterization (query language : String) (content : List Subject) :
    search_subjects query language content =
      content.filter (spec_matches query language)
    ∧ (search_subjects query language content).Sublist content
    ∧ ∀ s, s ∈ search_subjects query language content →
        (str_in (py_lower query) (py_lower s.id)
          || name_matches (py_lower query) s.nombreCA
          || name_matches (py_lower query) s.nombreES
          || name_matches (py_lower query) s.nombreEN) = true := by
  have h1 : search_subjects query language content =
      content.filter (spec_matches query language) :=
    search_loop_eq_filter query language content
  refine ⟨h1, ?_, ?_⟩
  · rw [h1]; exact List.filter_sublist content
  · intro s hs
    rw [h1] at hs
    exact spec_matches_imp query language s (List.mem_filter.mp hs).2

/-- Demo subject matching `"mat"` in its Spanish name. -/
def demo_mat : Subject :=
  ⟨"MT1010", some "Matematiques I", some "Matematicas I", some "Mathematics I"⟩

/-- Demo subject not matching `"mat"`. -/
def demo_phys : Subject := ⟨"FC1002", none, none, some "Physics"⟩

/-- Witness for C5 on a concrete two-subject listing. -/
theorem C5_search_characterization_witness :
    search_subjects "mat" "es" [demo_mat, demo_phys] =
      ([demo_mat, demo_phys].filter (spec_matches "mat" "es"))
    ∧ (search_subjects "mat" "es" [demo_mat, demo_phys]).Sublist [demo_mat, demo_phys]
    ∧ (str_in (py_lower "mat") (py_lower demo_mat.id)
        || name_matches (py_lower "mat") demo_mat.nombreCA
        || name_matches (py_lower "mat") demo_mat.nombreES
        || name_matches (py_lower "mat") demo_mat.nombreEN) = true := by
  have h := C5_search_characterization "mat" "es" [demo_mat, demo_phys]
  exact ⟨h.1, h.2.1, h.2.2 demo_mat (by decide)⟩

end MCPReyes
